import Mathlib

/-
Verification development for the rs-ervice service container
(LuticaCANARD/rs-ervice).

The repository contains several overlapping iterations of the same
registry/builder/lifecycle design:
  * src/src/lib.rs            : crate root; a panic-based builder (both a
                                blocking and a tokio variant) with context
                                metadata;
  * src/src/vanilla_rs_ervice.rs : a Result-based blocking builder;
  * src/src/tokio_rs_ervice.rs   : a Result-based async builder.

The shallow embedding below models:
  * TypeId as Nat (a stable per-type token, unique per type);
  * BTreeMap<TypeId, V> as an association list kept sorted by key
    (insertion keeps ascending key order, which is what BTreeMap
    iteration exposes);
  * a registrable service type T (an implementation of the
    RSContextService trait) as a record holding the TypeId of T, its
    type name, and the two lifecycle hook behaviours.  The creation
    hook receives the read view of the builder so far (the set of
    pending TypeIds); the built hook receives the finalized RSContext
    together with an external observation log (modelling the side
    effects hooks may perform) and returns a Result plus the new log;
  * panics (panic! and Result::expect in lib.rs) as the PanicOr
    outcome type, so that aborting and returning an error value stay
    distinguishable;
  * SystemTime::now() as a Nat-valued clock instant supplied to build.
-/

namespace RsErvice

/-- Outcome of a Rust computation that can abort the process via
panic! or Result::expect instead of returning. -/
inductive PanicOr (α : Type) where
  | panic (msg : String)
  | ret (a : α)
deriving DecidableEq

/-- Sequencing for PanicOr: a panic aborts the rest of the chain. -/
def PanicOr.bind {α β : Type} : PanicOr α → (α → PanicOr β) → PanicOr β
  | .panic m, _ => .panic m
  | .ret a, f => f a

/-- Rust struct RsServiceError(String), src/src/common.rs and src/src/lib.rs. -/
structure RsServiceError where
  msg : String
deriving DecidableEq, Repr

/-- Display impl for RsServiceError: prefixes the message with the
fixed "RsService Error: " text. -/
def RsServiceError.display (e : RsServiceError) : String :=
  "RsService Error: " ++ e.msg

/-- Rust std::any::TypeId, modelled as a Nat token unique per type. -/
abbrev TypeId := Nat

/-- Debug representation of a TypeId, modelling format!("{:?}", type_id). -/
def typeIdRepr (t : TypeId) : String := toString t

/-- Type-erased Box<dyn Any + Send + Sync> holding an Arc<Mutex<T>>
(type common::ContainerStruct / lib.rs ContainerStruct).  The dynamic
type recorded in the box is what downcast_ref checks against. -/
structure ContainerStruct where
  dynTypeId : TypeId
deriving DecidableEq, Repr

/-- Rust struct StoredServiceInfo from src/src/lib.rs: the type-erased
container plus the display type name. -/
structure StoredServiceInfo where
  container : ContainerStruct
  type_name : String
deriving DecidableEq, Repr

/-- BTreeMap::contains_key on the sorted association list. -/
def mapContains {α : Type} (k : TypeId) : List (TypeId × α) → Bool
  | [] => false
  | (k0, _) :: rest => k = k0 || mapContains k rest

/-- BTreeMap::insert on the sorted association list: keeps keys in
ascending order and replaces the value when the key is present. -/
def mapInsert {α : Type} (k : TypeId) (v : α) : List (TypeId × α) → List (TypeId × α)
  | [] => [(k, v)]
  | (k0, v0) :: rest =>
    if k < k0 then (k, v) :: (k0, v0) :: rest
    else if k = k0 then (k, v) :: rest
    else (k0, v0) :: mapInsert k v rest

/-- BTreeMap::get on the sorted association list. -/
def mapGet {α : Type} (k : TypeId) : List (TypeId × α) → Option α
  | [] => none
  | (k0, v0) :: rest => if k = k0 then some v0 else mapGet k rest

/-- Rust type MapForContainer = BTreeMap<TypeId, StoredServiceInfo>
from src/src/lib.rs. -/
abbrev MapForContainer := List (TypeId × StoredServiceInfo)

/-- Rust struct RsServiceEntryMetadata from src/src/lib.rs. -/
structure RsServiceEntryMetadata where
  type_id_repr : String
  type_name : String
deriving DecidableEq, Repr

/-- Rust struct RsContextMeta from src/src/lib.rs.  The creation
timestamp is the SystemTime::now() instant sampled during build. -/
structure RsContextMeta where
  registered_services : List RsServiceEntryMetadata
  creation_timestamp : Nat
deriving DecidableEq, Repr

/-- Rust struct RSContext from src/src/lib.rs: the finalized service
map plus its metadata. -/
structure RSContext where
  service_map : MapForContainer
  metadata : RsContextMeta
deriving DecidableEq, Repr

/-- RSContext::call from src/src/lib.rs: looks the TypeId up in the
service map and downcasts the stored box back to Arc<Mutex<T>>; the
downcast succeeds exactly when the erased dynamic type is T.  The
result is an Option, never an error and never a panic. -/
def RSContext.call (ctx : RSContext) (t : TypeId) : Option ContainerStruct :=
  (mapGet t ctx.service_map).bind
    (fun info => if info.container.dynTypeId = t then some info.container else none)

/-- RSContext::is_registered from src/src/lib.rs. -/
def RSContext.is_registered (ctx : RSContext) (t : TypeId) : Bool :=
  mapContains t ctx.service_map

/-- RSContext::get_metadata from src/src/lib.rs. -/
def RSContext.get_metadata (ctx : RSContext) : RsContextMeta :=
  ctx.metadata

/-- An implementation of the RSContextService trait (src/src/lib.rs)
for one concrete service type T: the TypeId and name of T plus the
behaviour of its two lifecycle hooks.  on_service_created sees the
read view of the builder so far (its pending TypeIds);
on_all_services_built sees the finalized context and threads an
external observation log for its side effects. -/
structure RSContextService where
  id : TypeId
  type_name : String
  on_service_created : List TypeId → Except RsServiceError Unit
  on_all_services_built : RSContext → List TypeId → Except RsServiceError Unit × List TypeId

/-- Rust struct RSContextBuilder from src/src/lib.rs: the pending
service map and the queue of enqueued after-build hook closures.
Each closure enqueued by register is fully determined by the service
type T it was generated for, so the queue stores those services. -/
structure RSContextBuilder where
  pending_services : MapForContainer
  after_build_hooks : List RSContextService

/-- RSContextBuilder::new from src/src/lib.rs. -/
def RSContextBuilder.new : RSContextBuilder :=
  { pending_services := [], after_build_hooks := [] }

/-- RSContextBuilder::register from src/src/lib.rs (blocking variant).
If the TypeId is already pending it executes
panic!("Service type ... already registered.").  Otherwise it
constructs the instance, runs on_service_created with the builder view
(before storing T) and aborts via Result::expect when that hook errors;
on success it stores the type-erased Arc<Mutex<T>> in the pending map
and enqueues the after-build closure for T. -/
def RSContextBuilder.register (b : RSContextBuilder) (T : RSContextService) :
    PanicOr RSContextBuilder :=
  if mapContains T.id b.pending_services then
    .panic ("Service type " ++ T.type_name ++ " already registered.")
  else
    match T.on_service_created (b.pending_services.map Prod.fst) with
    | .error _ => .panic "on_service_created hook failed"
    | .ok _ =>
      .ret
        { pending_services :=
            mapInsert T.id
              { container := { dynTypeId := T.id }, type_name := T.type_name }
              b.pending_services,
          after_build_hooks := b.after_build_hooks ++ [T] }

/-- Sequential chain of register calls, one per service, threading the
builder linearly as the consuming Rust signature enforces. -/
def registerChain (svcs : List RSContextService) (b : RSContextBuilder) :
    PanicOr RSContextBuilder :=
  match svcs with
  | [] => .ret b
  | s :: rest => (b.register s).bind (registerChain rest)

/-- Context snapshot taken at the start of RSContextBuilder::build in
src/src/lib.rs: metadata entries are collected by iterating the
pending BTreeMap (ascending TypeId order), the timestamp is the
build-time clock instant, and the pending map is moved into the
context. -/
def buildContext (b : RSContextBuilder) (now : Nat) : RSContext :=
  { service_map := b.pending_services,
    metadata :=
      { registered_services :=
          b.pending_services.map
            (fun p => { type_id_repr := typeIdRepr p.1, type_name := p.2.type_name }),
        creation_timestamp := now } }

/-- Loop over the enqueued after-build closures in
RSContextBuilder::build from src/src/lib.rs.  Each closure does
ctx.call::<T>().expect("Service not found") and then runs
on_all_services_built on the locked instance; the first error stops
the loop (the ? operator) and is returned unchanged. -/
def runAfterBuildHooks (hooks : List RSContextService) (ctx : RSContext)
    (log : List TypeId) : PanicOr (Except RsServiceError Unit × List TypeId) :=
  match hooks with
  | [] => .ret (.ok (), log)
  | T :: rest =>
    match ctx.call T.id with
    | none => .panic "Service not found"
    | some _ =>
      match T.on_all_services_built ctx log with
      | (.error e, log2) => .ret (.error e, log2)
      | (.ok _, log2) => runAfterBuildHooks rest ctx log2

/-- RSContextBuilder::build from src/src/lib.rs (blocking variant):
snapshots the context, runs every enqueued closure in order, and
returns the context only when every closure succeeded; the first hook
error is propagated verbatim by the ? operator. -/
def RSContextBuilder.build (b : RSContextBuilder) (now : Nat) (log : List TypeId) :
    PanicOr (Except RsServiceError RSContext × List TypeId) :=
  match runAfterBuildHooks b.after_build_hooks (buildContext b now) log with
  | .panic m => .panic m
  | .ret (.error e, log2) => .ret (.error e, log2)
  | .ret (.ok _, log2) => .ret (.ok (buildContext b now), log2)

namespace Tokio

/-- RSContextBuilder::build from src/src/lib.rs (tokio variant): same
loop, but each failing hook result is rewrapped by
map_err(|e| RsServiceError(format!("Async after_build hook failed: {}", e)))
before being propagated, so the caller receives a fresh error whose
message embeds the Display form of the original.  Awaiting the hooks
sequentially is modelled by the same sequential loop. -/
def build (b : RSContextBuilder) (now : Nat) (log : List TypeId) :
    PanicOr (Except RsServiceError RSContext × List TypeId) :=
  match runAfterBuildHooks b.after_build_hooks (buildContext b now) log with
  | .panic m => .panic m
  | .ret (.error e, log2) =>
    .ret (.error { msg := "Async after_build hook failed: " ++ e.display }, log2)
  | .ret (.ok _, log2) => .ret (.ok (buildContext b now), log2)

end Tokio

namespace Vanilla

/-- Rust type common::ContainerStruct = Box<dyn Any> as stored by
src/src/vanilla_rs_ervice.rs: the type-erased Arc<Mutex<T>> clone. -/
abbrev VMap := List (TypeId × ContainerStruct)

/-- RSContext as constructed by vanilla_rs_ervice::RSContextBuilder::build:
only the moved service map, no metadata. -/
structure RSContext where
  service_map : VMap
deriving DecidableEq, Repr

/-- Service lookup used by the vanilla after-build closures:
ctx.call::<T>() is the same BTreeMap get plus downcast. -/
def RSContext.call (ctx : RSContext) (t : TypeId) : Option ContainerStruct :=
  (mapGet t ctx.service_map).bind
    (fun c => if c.dynTypeId = t then some c else none)

/-- An implementation of vanilla_rs_ervice::RSContextService for one
concrete service type, mirroring the lib.rs trait but with hooks over
the vanilla context. -/
structure RSContextService where
  id : TypeId
  type_name : String
  on_service_created : List TypeId → Except RsServiceError Unit
  on_all_services_built : RSContext → List TypeId → Except RsServiceError Unit × List TypeId

/-- Rust struct RSContextBuilder from src/src/vanilla_rs_ervice.rs. -/
structure RSContextBuilder where
  pending_services : VMap
  after_build_hooks : List RSContextService

/-- RSContextBuilder::new from src/src/vanilla_rs_ervice.rs. -/
def RSContextBuilder.new : RSContextBuilder :=
  { pending_services := [], after_build_hooks := [] }

/-- RSContextBuilder::register from src/src/vanilla_rs_ervice.rs:
returns Err("Service type ... already registered.") when the TypeId is
already pending; returns the wrapped creation-hook error when
on_service_created fails (in both error cases nothing is stored and no
closure is enqueued); otherwise stores the type-erased clone and
enqueues the after-build closure for T. -/
def RSContextBuilder.register (b : RSContextBuilder) (T : RSContextService) :
    Except RsServiceError RSContextBuilder :=
  if mapContains T.id b.pending_services then
    .error { msg := "Service type " ++ T.type_name ++ " already registered." }
  else
    match T.on_service_created (b.pending_services.map Prod.fst) with
    | .error e =>
      .error
        { msg := "on_service_created hook failed for " ++ T.type_name ++ ": " ++ e.display }
    | .ok _ =>
      .ok
        { pending_services := mapInsert T.id { dynTypeId := T.id } b.pending_services,
          after_build_hooks := b.after_build_hooks ++ [T] }

/-- Sequential chain of vanilla register calls. -/
def registerChain (svcs : List RSContextService) (b : RSContextBuilder) :
    Except RsServiceError RSContextBuilder :=
  match svcs with
  | [] => .ok b
  | s :: rest => (b.register s).bind (registerChain rest)

/-- Loop over the vanilla after-build closures: each closure silently
skips its body when ctx.call::<T>() is absent, otherwise locks the
instance and runs on_all_services_built; the first error stops the
loop and is propagated verbatim by the ? operator. -/
def runAfterBuildHooks (hooks : List RSContextService) (ctx : RSContext)
    (log : List TypeId) : Except RsServiceError Unit × List TypeId :=
  match hooks with
  | [] => (.ok (), log)
  | T :: rest =>
    match ctx.call T.id with
    | none => runAfterBuildHooks rest ctx log
    | some _ =>
      match T.on_all_services_built ctx log with
      | (.error e, log2) => (.error e, log2)
      | (.ok _, log2) => runAfterBuildHooks rest ctx log2

/-- RSContextBuilder::build from src/src/vanilla_rs_ervice.rs: moves
the pending map into the context, runs every enqueued closure in
order, and returns the context only when every closure succeeded. -/
def RSContextBuilder.build (b : RSContextBuilder) (log : List TypeId) :
    Except RsServiceError RSContext × List TypeId :=
  match runAfterBuildHooks b.after_build_hooks { service_map := b.pending_services } log with
  | (.error e, log2) => (.error e, log2)
  | (.ok _, log2) => (.ok { service_map := b.pending_services }, log2)

end Vanilla

/-- The StoredServiceInfo that register builds for a service type T:
the type-erased Arc<Mutex<T>> (whose dynamic type is T) plus the type
name of T. -/
def storedInfo (T : RSContextService) : StoredServiceInfo :=
  { container := { dynTypeId := T.id }, type_name := T.type_name }

/-- Pending map resulting from a successful chain of register calls:
one BTreeMap insert per service, in registration order. -/
def insertAllPending (svcs : List RSContextService) (m : MapForContainer) :
    MapForContainer :=
  match svcs with
  | [] => m
  | s :: rest => insertAllPending rest (mapInsert s.id (storedInfo s) m)

/-- Sample service implementation whose hooks always succeed and give
no observable side effect. -/
def mkService (i : TypeId) (n : String) : RSContextService :=
  { id := i, type_name := n,
    on_service_created := fun _ => .ok (),
    on_all_services_built := fun _ log => (.ok (), log) }

/-- Sample service whose built hook appends its own TypeId to the
observation log and succeeds. -/
def mkLogger (i : TypeId) (n : String) : RSContextService :=
  { mkService i n with on_all_services_built := fun _ log => (.ok (), log ++ [i]) }

/-- Sample service whose built hook fails with the given error and
gives no side effect. -/
def mkBuiltFail (i : TypeId) (n : String) (e : RsServiceError) : RSContextService :=
  { mkService i n with on_all_services_built := fun _ log => (.error e, log) }

/-- Sample vanilla service implementation whose hooks always succeed. -/
def vMkService (i : TypeId) (n : String) : Vanilla.RSContextService :=
  { id := i, type_name := n,
    on_service_created := fun _ => .ok (),
    on_all_services_built := fun _ log => (.ok (), log) }

/-- Sample service registered twice in the duplicate-registration
scenario. -/
def dupSvc : RSContextService := mkService 0 "DupService"

/-- Vanilla counterpart of dupSvc. -/
def vDupSvc : Vanilla.RSContextService := vMkService 0 "DupService"

/-- Sample service whose creation hook fails. -/
def createFailSvc : RSContextService :=
  { mkService 0 "CreateFailService" with
      on_service_created := fun _ => .error { msg := "init failed" } }

/-- Vanilla counterpart of createFailSvc. -/
def vCreateFailSvc : Vanilla.RSContextService :=
  { vMkService 0 "CreateFailService" with
      on_service_created := fun _ => .error { msg := "init failed" } }

/-- ServiceA with TypeId 2 for the metadata-order counterexample. -/
def svcA2 : RSContextService := mkService 2 "ServiceA"

/-- ServiceB with TypeId 1 for the metadata-order counterexample. -/
def svcB1 : RSContextService := mkService 1 "ServiceB"

/-- Builder state after registering svcA2 then svcB1. -/
def builderBA : RSContextBuilder :=
  { pending_services :=
      [(1, { container := { dynTypeId := 1 }, type_name := "ServiceB" }),
       (2, { container := { dynTypeId := 2 }, type_name := "ServiceA" })],
    after_build_hooks := [svcA2, svcB1] }

/-- ServiceA with TypeId 1 for the metadata witness. -/
def svcA1 : RSContextService := mkService 1 "ServiceA"

/-- ServiceB with TypeId 2 for the metadata witness. -/
def svcB2 : RSContextService := mkService 2 "ServiceB"

/-- Builder state after registering svcA1 then svcB2. -/
def builderAB : RSContextBuilder :=
  { pending_services :=
      [(1, { container := { dynTypeId := 1 }, type_name := "ServiceA" }),
       (2, { container := { dynTypeId := 2 }, type_name := "ServiceB" })],
    after_build_hooks := [svcA1, svcB2] }

/-- Logging service A (TypeId 3) for the hook-order witness; the ids
are deliberately not in registration order. -/
def lgA : RSContextService := mkLogger 3 "LoggerA"

/-- Logging service B (TypeId 1) for the hook-order witness. -/
def lgB : RSContextService := mkLogger 1 "LoggerB"

/-- Logging service C (TypeId 2) for the hook-order witness. -/
def lgC : RSContextService := mkLogger 2 "LoggerC"

/-- Service whose built hook fails with "boom", for the tokio error
wrapping counterexample. -/
def svcBoom : RSContextService := mkBuiltFail 0 "BoomService" { msg := "boom" }

/-- Builder state after registering svcBoom. -/
def builderBoom : RSContextBuilder :=
  { pending_services := [(0, { container := { dynTypeId := 0 }, type_name := "BoomService" })],
    after_build_hooks := [svcBoom] }

/-- Logging service that runs before the failing hook in the
first-error witness. -/
def wlgA : RSContextService := mkLogger 0 "EarlyLogger"

/-- Service whose built hook fails, in the first-error witness. -/
def wFail : RSContextService := mkBuiltFail 1 "FailService" { msg := "built failed" }

/-- Logging service that is registered after the failing hook in the
first-error witness; its hook must never run. -/
def wlgC : RSContextService := mkLogger 2 "LateLogger"

/-- First-registered service of the full-visibility witness: its built
hook succeeds only when the last-registered service (TypeId 8) is
retrievable from the context. -/
def probeFirst : RSContextService :=
  { id := 7, type_name := "Logger",
    on_service_created := fun _ => .ok (),
    on_all_services_built := fun ctx log =>
      (if (ctx.call 8).isSome then .ok () else .error { msg := "Logger missing" }, log) }

/-- Last-registered service of the full-visibility witness: its built
hook succeeds only when the first-registered service (TypeId 7) is
retrievable from the context. -/
def probeSecond : RSContextService :=
  { id := 8, type_name := "Auditor",
    on_service_created := fun _ => .ok (),
    on_all_services_built := fun ctx log =>
      (if (ctx.call 7).isSome then .ok () else .error { msg := "Auditor missing" }, log) }

/-- Succeeding service Alpha (TypeId 10) for the distinct-chain
witness. -/
def w6a : RSContextService := mkService 10 "Alpha"

/-- Succeeding service Beta (TypeId 11) for the distinct-chain
witness. -/
def w6b : RSContextService := mkService 11 "Beta"

/-- Simple service (TypeId 5) for the lookup-safety witness. -/
def w9svc : RSContextService := mkService 5 "SimpleService"

/-- Builder state after registering w9svc. -/
def builder9 : RSContextBuilder :=
  { pending_services :=
      [(5, { container := { dynTypeId := 5 }, type_name := "SimpleService" })],
    after_build_hooks := [w9svc] }

/-- Membership after a BTreeMap insert: the inserted key plus the old
members. -/
theorem mapContains_insert {α : Type} (k k2 : TypeId) (v : α) (m : List (TypeId × α)) :
    mapContains k (mapInsert k2 v m) = (decide (k = k2) || mapContains k m) := by
  induction m with
  | nil => simp [mapInsert, mapContains]
  | cons p rest ih =>
    obtain ⟨k0, v0⟩ := p
    by_cases h1 : k2 < k0
    · simp [mapInsert, mapContains, h1]
    · by_cases h2 : k2 = k0
      · subst h2
        simp only [mapInsert, if_neg h1, if_pos rfl, mapContains]
        cases hk : decide (k = k2) <;> simp_all
      · simp only [mapInsert, if_neg h1, if_neg h2, mapContains, ih]
        cases hk : decide (k = k2) <;> cases hk0 : decide (k = k0) <;> simp_all

/-- Lookup of the freshly inserted key. -/
theorem mapGet_insert_self {α : Type} (k : TypeId) (v : α) (m : List (TypeId × α)) :
    mapGet k (mapInsert k v m) = some v := by
  induction m with
  | nil => simp [mapInsert, mapGet]
  | cons p rest ih =>
    obtain ⟨k0, v0⟩ := p
    by_cases h1 : k < k0
    · simp [mapInsert, mapGet, h1]
    · by_cases h2 : k = k0
      · subst h2
        simp [mapInsert, mapGet, h1]
      · simp [mapInsert, mapGet, h1, h2, ih]

/-- Lookup of a different key is unchanged by an insert. -/
theorem mapGet_insert_ne {α : Type} (k k2 : TypeId) (v : α) (m : List (TypeId × α))
    (h : k ≠ k2) : mapGet k (mapInsert k2 v m) = mapGet k m := by
  induction m with
  | nil => simp [mapInsert, mapGet, h]
  | cons p rest ih =>
    obtain ⟨k0, v0⟩ := p
    by_cases h1 : k2 < k0
    · simp [mapInsert, mapGet, h1, h]
    · by_cases h2 : k2 = k0
      · subst h2
        simp [mapInsert, mapGet, h1, h]
      · simp [mapInsert, mapGet, h1, h2, ih]

/-- A key that is not a member has no binding. -/
theorem mapGet_eq_none_of_contains_false {α : Type} (k : TypeId) (m : List (TypeId × α))
    (h : mapContains k m = false) : mapGet k m = none := by
  induction m with
  | nil => simp [mapGet]
  | cons p rest ih =>
    obtain ⟨k0, v0⟩ := p
    simp only [mapContains, Bool.or_eq_false_iff, decide_eq_false_iff_not] at h
    simp [mapGet, h.1, ih h.2]

/-- A chain of inserts does not touch keys outside the inserted ids. -/
theorem insertAll_get_not_mem (svcs : List RSContextService) (m : MapForContainer)
    (k : TypeId) (h : k ∉ svcs.map RSContextService.id) :
    mapGet k (insertAllPending svcs m) = mapGet k m := by
  induction svcs generalizing m with
  | nil => rfl
  | cons s rest ih =>
    simp only [List.map_cons, List.mem_cons, not_or] at h
    rw [insertAllPending, ih _ h.2, mapGet_insert_ne _ _ _ _ h.1]

/-- After a successful chain, every registered service has exactly its
own stored info in the pending map. -/
theorem insertAll_get_mem (svcs : List RSContextService) (m : MapForContainer)
    (hnd : (svcs.map RSContextService.id).Nodup) (s : RSContextService) (hs : s ∈ svcs) :
    mapGet s.id (insertAllPending svcs m) = some (storedInfo s) := by
  induction svcs generalizing m with
  | nil => cases hs
  | cons h0 rest ih =>
    simp only [List.map_cons, List.nodup_cons] at hnd
    cases hs with
    | head =>
      rw [insertAllPending, insertAll_get_not_mem _ _ _ hnd.1, mapGet_insert_self]
    | tail _ hs =>
      exact ih _ hnd.2 hs

/-- Membership in the chained pending map. -/
theorem insertAll_contains (svcs : List RSContextService) (m : MapForContainer)
    (k : TypeId) :
    mapContains k (insertAllPending svcs m)
      = (decide (k ∈ svcs.map RSContextService.id) || mapContains k m) := by
  induction svcs generalizing m with
  | nil => simp [insertAllPending]
  | cons s rest ih =>
    rw [insertAllPending, ih, mapContains_insert]
    by_cases h1 : k ∈ rest.map RSContextService.id <;>
      by_cases h2 : k = s.id <;> simp [h1, h2]

/-- Unfolding of a successful register call from src/src/lib.rs: the
service is stored in the pending map and its closure is enqueued. -/
theorem register_ok (b : RSContextBuilder) (T : RSContextService)
    (hT : mapContains T.id b.pending_services = false)
    (hc : T.on_service_created (b.pending_services.map Prod.fst) = .ok ()) :
    b.register T =
      .ret { pending_services := mapInsert T.id (storedInfo T) b.pending_services,
             after_build_hooks := b.after_build_hooks ++ [T] } := by
  rw [RSContextBuilder.register, hT, hc]
  rfl

/-- Inversion of a non-panicking register call: the duplicate check
and the creation hook both passed, and the builder was extended as
register_ok describes. -/
theorem register_ret_inv (b : RSContextBuilder) (T : RSContextService)
    (b2 : RSContextBuilder) (h : b.register T = .ret b2) :
    b2.pending_services = mapInsert T.id (storedInfo T) b.pending_services ∧
      b2.after_build_hooks = b.after_build_hooks ++ [T] := by
  rw [RSContextBuilder.register] at h
  split at h
  · cases h
  · split at h
    · cases h
    · cases h
      exact ⟨rfl, rfl⟩

/-- A chain of pairwise fresh registrations with succeeding creation
hooks returns the builder holding all services, with the after-build
closures enqueued in registration order. -/
theorem registerChain_ret (svcs : List RSContextService) (b : RSContextBuilder)
    (hnd : (svcs.map RSContextService.id).Nodup)
    (hfresh : ∀ s ∈ svcs, mapContains s.id b.pending_services = false)
    (hc : ∀ s ∈ svcs, ∀ v, s.on_service_created v = .ok ()) :
    registerChain svcs b =
      .ret { pending_services := insertAllPending svcs b.pending_services,
             after_build_hooks := b.after_build_hooks ++ svcs } := by
  induction svcs generalizing b with
  | nil => simp [registerChain, insertAllPending]
  | cons s rest ih =>
    simp only [List.map_cons, List.nodup_cons] at hnd
    rw [registerChain,
      register_ok b s (hfresh s (List.mem_cons_self s rest)) (hc s (List.mem_cons_self s rest) _)]
    rw [PanicOr.bind]
    rw [ih _ hnd.2
      (fun t ht => by
        rw [mapContains_insert]
        have h1 : t.id ≠ s.id := by
          intro he
          exact hnd.1 (he ▸ List.mem_map_of_mem RSContextService.id ht)
        simp [h1, hfresh t (List.mem_cons_of_mem s ht)])
      (fun t ht v => hc t (List.mem_cons_of_mem s ht) v)]
    simp [insertAllPending]

/-- Lookup into a context whose map binds the key to a container of
exactly that dynamic type: the downcast succeeds. -/
theorem call_of_get (ctx : RSContext) (t : TypeId) (info : StoredServiceInfo)
    (h : mapGet t ctx.service_map = some info) (h2 : info.container.dynTypeId = t) :
    ctx.call t = some info.container := by
  rw [RSContext.call, h]
  simp [h2]

/-- Lookup of an unbound key returns the normal empty result. -/
theorem call_none_of_get_none (ctx : RSContext) (t : TypeId)
    (h : mapGet t ctx.service_map = none) : ctx.call t = none := by
  rw [RSContext.call, h]
  rfl

/-- When every enqueued closure finds its service in the context, the
hook loop never reaches the expect panic. -/
theorem runAfterBuildHooks_ret_of_lookup (hooks : List RSContextService)
    (ctx : RSContext) (log : List TypeId)
    (h : ∀ s ∈ hooks, (ctx.call s.id).isSome = true) :
    ∃ r, runAfterBuildHooks hooks ctx log = .ret r := by
  induction hooks generalizing log with
  | nil => exact ⟨_, rfl⟩
  | cons T rest ih =>
    have hT := h T (List.mem_cons_self T rest)
    rcases hc : ctx.call T.id with _ | c
    · rw [hc] at hT
      cases hT
    · rcases hres : T.on_all_services_built ctx log with ⟨r, log2⟩
      cases r with
      | error e =>
        exact ⟨_, by rw [runAfterBuildHooks, hc, hres]⟩
      | ok u =>
        obtain ⟨r2, h2⟩ := ih log2 (fun s hs => h s (List.mem_cons_of_mem T hs))
        exact ⟨r2, by simp [runAfterBuildHooks, hc, hres, h2]⟩

/-- When every closure finds its service and every built hook
succeeds, the hook loop completes successfully. -/
theorem runAfterBuildHooks_ok (hooks : List RSContextService)
    (ctx : RSContext) (log : List TypeId)
    (hl : ∀ s ∈ hooks, (ctx.call s.id).isSome = true)
    (hok : ∀ s ∈ hooks, ∀ lg, (s.on_all_services_built ctx lg).1 = .ok ()) :
    ∃ log2, runAfterBuildHooks hooks ctx log = .ret (.ok (), log2) := by
  induction hooks generalizing log with
  | nil => exact ⟨log, rfl⟩
  | cons T rest ih =>
    have hT := hl T (List.mem_cons_self T rest)
    rcases hc : ctx.call T.id with _ | c
    · rw [hc] at hT
      cases hT
    · rcases hres : T.on_all_services_built ctx log with ⟨r, log2⟩
      have hr := hok T (List.mem_cons_self T rest) log
      rw [hres] at hr
      simp only at hr
      subst hr
      obtain ⟨log3, h3⟩ := ih log2 (fun s hs => hl s (List.mem_cons_of_mem T hs))
        (fun s hs lg => hok s (List.mem_cons_of_mem T hs) lg)
      exact ⟨log3, by simp [runAfterBuildHooks, hc, hres, h3]⟩

/-- When every closure finds its service and every built hook is a
logger (appends its own id and succeeds), the hook loop appends the
ids in exactly queue order. -/
theorem runAfterBuildHooks_loggers (hooks : List RSContextService)
    (ctx : RSContext) (log : List TypeId)
    (hl : ∀ s ∈ hooks, (ctx.call s.id).isSome = true)
    (hlog : ∀ s ∈ hooks, ∀ lg, s.on_all_services_built ctx lg = (.ok (), lg ++ [s.id])) :
    runAfterBuildHooks hooks ctx log
      = .ret (.ok (), log ++ hooks.map RSContextService.id) := by
  induction hooks generalizing log with
  | nil => simp [runAfterBuildHooks]
  | cons T rest ih =>
    have hT := hl T (List.mem_cons_self T rest)
    rcases hc : ctx.call T.id with _ | c
    · rw [hc] at hT
      cases hT
    · simp only [runAfterBuildHooks, hc, hlog T (List.mem_cons_self T rest) log,
        ih _ (fun s hs => hl s (List.mem_cons_of_mem T hs))
          (fun s hs lg => hlog s (List.mem_cons_of_mem T hs) lg)]
      simp

/-- The first failing built hook stops the loop: the hooks before it
run (and keep their side effects), its error is returned unchanged,
and the hooks after it never run. -/
theorem runAfterBuildHooks_first_error (pre post : List RSContextService)
    (f : RSContextService) (e : RsServiceError) (ctx : RSContext) (log : List TypeId)
    (hl : ∀ s ∈ pre, (ctx.call s.id).isSome = true)
    (hlf : (ctx.call f.id).isSome = true)
    (hlog : ∀ s ∈ pre, ∀ lg, s.on_all_services_built ctx lg = (.ok (), lg ++ [s.id]))
    (hf : ∀ lg, f.on_all_services_built ctx lg = (.error e, lg)) :
    runAfterBuildHooks (pre ++ f :: post) ctx log
      = .ret (.error e, log ++ pre.map RSContextService.id) := by
  induction pre generalizing log with
  | nil =>
    rcases hc : ctx.call f.id with _ | c
    · rw [hc] at hlf
      cases hlf
    · simp [runAfterBuildHooks, hc, hf log]
  | cons T rest ih =>
    have hT := hl T (List.mem_cons_self T rest)
    rcases hc : ctx.call T.id with _ | c
    · rw [hc] at hT
      cases hT
    · simp only [List.cons_append, runAfterBuildHooks, hc,
        hlog T (List.mem_cons_self T rest) log, List.append_eq]
      rw [ih (log ++ [T.id]) (fun s hs => hl s (List.mem_cons_of_mem T hs))
          (fun s hs lg => hlog s (List.mem_cons_of_mem T hs) lg)]
      simp

/-- A successful hook pass makes build return the snapshot context. -/
theorem build_eq_ok (b : RSContextBuilder) (now : Nat) (log log2 : List TypeId)
    (h : runAfterBuildHooks b.after_build_hooks (buildContext b now) log
        = .ret (.ok (), log2)) :
    b.build now log = .ret (.ok (buildContext b now), log2) := by
  rw [RSContextBuilder.build, h]

/-- Inversion: a successful build returned exactly the snapshot
context taken at the start of build. -/
theorem build_ok_inv (b : RSContextBuilder) (now : Nat) (log log2 : List TypeId)
    (ctx : RSContext) (h : b.build now log = .ret (.ok ctx, log2)) :
    ctx = buildContext b now := by
  rw [RSContextBuilder.build] at h
  split at h
  · cases h
  · cases h
  · cases h
    rfl

/-- Membership in a BTreeMap is exactly having a binding. -/
theorem mapContains_eq_isSome_get {α : Type} (k : TypeId) (m : List (TypeId × α)) :
    mapContains k m = (mapGet k m).isSome := by
  induction m with
  | nil => rfl
  | cons p rest ih =>
    obtain ⟨k0, v0⟩ := p
    by_cases h : k = k0 <;> simp [mapContains, mapGet, h, ih]

/-- Helper for discharging hook hypotheses over a two-element chain. -/
theorem forall_mem_pair {P : RSContextService → Prop} (A B : RSContextService)
    (hA : P A) (hB : P B) : ∀ s ∈ [A, B], P s := by
  intro s hs
  rcases List.mem_cons.mp hs with rfl | hs2
  · exact hA
  · rcases List.mem_cons.mp hs2 with rfl | h3
    · exact hB
    · cases h3

/-- Helper for discharging hook hypotheses over a singleton chain. -/
theorem forall_mem_single {P : RSContextService → Prop} (A : RSContextService)
    (hA : P A) : ∀ s ∈ [A], P s := by
  intro s hs
  rcases List.mem_singleton.mp hs with rfl
  exact hA

/-- Helper for discharging hook hypotheses over a three-element chain. -/
theorem forall_mem_triple {P : RSContextService → Prop} (A B C : RSContextService)
    (hA : P A) (hB : P B) (hC : P C) : ∀ s ∈ [A, B, C], P s := by
  intro s hs
  rcases List.mem_cons.mp hs with rfl | hs2
  · exact hA
  · exact forall_mem_pair B C hB hC s hs2

/-- C1 (code_bug evidence): on a duplicate registration the crate-root
builder of src/src/lib.rs aborts the process with
panic!("Service type ... already registered.") instead of returning a
DuplicateRegistration error, while the Result-based rewrite in
src/src/vanilla_rs_ervice.rs returns exactly that error as a value,
before mutating anything. -/
theorem lib_register_duplicate_panics :
    (RSContextBuilder.new.register dupSvc).bind (fun b => b.register dupSvc)
        = .panic ("Service type " ++ dupSvc.type_name ++ " already registered.") ∧
      (Vanilla.RSContextBuilder.new.register vDupSvc).bind (fun b => b.register vDupSvc)
        = .error { msg := "Service type " ++ vDupSvc.type_name ++ " already registered." } :=
  ⟨rfl, rfl⟩

/-- C5 (code_bug evidence): when on_service_created fails, the
crate-root builder of src/src/lib.rs aborts the process through
Result::expect instead of returning the failure, while the
Result-based rewrite in src/src/vanilla_rs_ervice.rs returns the
wrapped creation-phase hook failure to the caller (and, returning
before any insertion, stores nothing and enqueues no closure). -/
theorem lib_register_creation_failure_panics :
    RSContextBuilder.new.register createFailSvc = .panic "on_service_created hook failed" ∧
      Vanilla.RSContextBuilder.new.register vCreateFailSvc
        = .error { msg := "on_service_created hook failed for "
            ++ vCreateFailSvc.type_name ++ ": "
            ++ RsServiceError.display { msg := "init failed" } } :=
  ⟨rfl, rfl⟩

/-- C10: building an empty builder always succeeds, runs zero hooks,
and returns a context with empty metadata on which every lookup is
empty and no type is registered. -/
theorem lib_empty_build_returns_empty_context (now : Nat) (log : List TypeId) (t : TypeId) :
    RSContextBuilder.new.build now log
        = .ret (.ok (buildContext RSContextBuilder.new now), log) ∧
      (buildContext RSContextBuilder.new now).metadata.registered_services = [] ∧
      (buildContext RSContextBuilder.new now).call t = none ∧
      (buildContext RSContextBuilder.new now).is_registered t = false :=
  ⟨rfl, rfl, rfl, rfl⟩

/-- Witness for lib_empty_build_returns_empty_context at a concrete
clock, log and probe type. -/
theorem lib_empty_build_returns_empty_context_witness :
    RSContextBuilder.new.build 0 [] = .ret (.ok (buildContext RSContextBuilder.new 0), []) ∧
      (buildContext RSContextBuilder.new 0).metadata.registered_services = [] ∧
      (buildContext RSContextBuilder.new 0).call 9 = none ∧
      (buildContext RSContextBuilder.new 0).is_registered 9 = false :=
  lib_empty_build_returns_empty_context 0 [] 9

/-- C2 counterexample: registering ServiceA (TypeId 2) and then
ServiceB (TypeId 1) succeeds, but metadata().registered_services lists
ServiceB before ServiceA, because build collects the entries by
iterating the pending BTreeMap in ascending TypeId order rather than
in registration order. -/
theorem lib_metadata_not_registration_order :
    registerChain [svcA2, svcB1] RSContextBuilder.new = .ret builderBA ∧
      builderBA.build 0 [] = .ret (.ok (buildContext builderBA 0), []) ∧
      (buildContext builderBA 0).metadata.registered_services.map
          RsServiceEntryMetadata.type_name = ["ServiceB", "ServiceA"] ∧
      (["ServiceB", "ServiceA"] : List String) ≠ ["ServiceA", "ServiceB"] :=
  ⟨rfl, rfl, rfl, by decide⟩

/-- C4 counterexample: in the tokio build of src/src/lib.rs a failing
built hook is not surfaced verbatim: the error the caller receives is
a fresh RsServiceError whose message wraps the Display form of the
original ("boom"), and it differs from the original error value. -/
theorem tokio_build_rewraps_hook_error :
    RSContextBuilder.new.register svcBoom = .ret builderBoom ∧
      Tokio.build builderBoom 0 []
        = .ret (.error { msg := "Async after_build hook failed: "
            ++ RsServiceError.display { msg := "boom" } }, []) ∧
      ({ msg := "Async after_build hook failed: "
            ++ RsServiceError.display { msg := "boom" } } : RsServiceError)
        ≠ { msg := "boom" } :=
  ⟨rfl, rfl, by decide⟩

/-- A register call that returned (instead of panicking) necessarily
passed the duplicate check. -/
theorem register_ret_fresh (b : RSContextBuilder) (T : RSContextService)
    (b2 : RSContextBuilder) (h : b.register T = .ret b2) :
    mapContains T.id b.pending_services = false := by
  rw [RSContextBuilder.register] at h
  split at h
  · cases h
  · rename_i hcond
    simpa using hcond

/-- Register preserves the builder invariant that every enqueued
closure finds exactly its own stored entry in the pending map. -/
theorem register_preserves_keyed (b : RSContextBuilder) (T : RSContextService)
    (b2 : RSContextBuilder) (h : b.register T = .ret b2)
    (hb : ∀ s ∈ b.after_build_hooks,
        mapGet s.id b.pending_services = some (storedInfo s)) :
    ∀ s ∈ b2.after_build_hooks, mapGet s.id b2.pending_services = some (storedInfo s) := by
  obtain ⟨hp, hh⟩ := register_ret_inv b T b2 h
  have hfresh := register_ret_fresh b T b2 h
  intro s hs
  rw [hh] at hs
  rw [hp]
  rcases List.mem_append.mp hs with hs1 | hs2
  · have hne : s.id ≠ T.id := by
      intro he
      have := hb s hs1
      rw [mapContains_eq_isSome_get, ← he, this] at hfresh
      cases hfresh
    rw [mapGet_insert_ne _ _ _ _ hne]
    exact hb s hs1
  · rcases List.mem_singleton.mp hs2 with rfl
    exact mapGet_insert_self _ _ _

/-- A whole successful register chain preserves the closure/pending
invariant. -/
theorem registerChain_preserves_keyed (svcs : List RSContextService)
    (b b2 : RSContextBuilder) (h : registerChain svcs b = .ret b2)
    (hb : ∀ s ∈ b.after_build_hooks,
        mapGet s.id b.pending_services = some (storedInfo s)) :
    ∀ s ∈ b2.after_build_hooks, mapGet s.id b2.pending_services = some (storedInfo s) := by
  induction svcs generalizing b with
  | nil =>
    rw [registerChain] at h
    cases h
    exact hb
  | cons s rest ih =>
    rw [registerChain] at h
    rcases hr : b.register s with m | b1
    · rw [hr] at h
      cases h
    · rw [hr] at h
      simp only [PanicOr.bind] at h
      exact ih b1 h (register_preserves_keyed b s b1 hr hb)

/-- C9: whenever a register chain has returned a builder, the lookup
performed inside each enqueued after-build closure finds its service
in the snapshot context (the "Service not found" branch is
unreachable), and hence build never panics: it always returns a
value. -/
theorem lib_hook_lookup_never_fails (svcs : List RSContextService)
    (b : RSContextBuilder) (now : Nat) (log : List TypeId)
    (hchain : registerChain svcs RSContextBuilder.new = .ret b) :
    (∀ s ∈ b.after_build_hooks, ((buildContext b now).call s.id).isSome = true) ∧
      ∃ r, b.build now log = .ret r := by
  have hkeyed := registerChain_preserves_keyed svcs RSContextBuilder.new b hchain
    (fun s hs => absurd hs (List.not_mem_nil s))
  have hl : ∀ s ∈ b.after_build_hooks, ((buildContext b now).call s.id).isSome = true := by
    intro s hs
    rw [call_of_get (buildContext b now) s.id (storedInfo s) (hkeyed s hs) rfl]
    rfl
  refine ⟨hl, ?_⟩
  obtain ⟨r, hr⟩ := runAfterBuildHooks_ret_of_lookup b.after_build_hooks
    (buildContext b now) log hl
  rcases r with ⟨er, lg2⟩
  cases er with
  | error e =>
    exact ⟨(.error e, lg2), by rw [RSContextBuilder.build, hr]⟩
  | ok u =>
    exact ⟨(.ok (buildContext b now), lg2), by rw [RSContextBuilder.build, hr]⟩

/-- C3: for any chain of services with pairwise distinct TypeIds,
succeeding creation hooks and logging built hooks, registering them in
order and building runs the built hooks in exactly registration order:
the observation log gains the TypeIds in registration order. -/
theorem lib_built_hooks_in_registration_order (svcs : List RSContextService)
    (now : Nat) (log : List TypeId)
    (hnd : (svcs.map RSContextService.id).Nodup)
    (hc : ∀ s ∈ svcs, ∀ v, s.on_service_created v = .ok ())
    (hlog : ∀ s ∈ svcs, ∀ ctx lg, s.on_all_services_built ctx lg = (.ok (), lg ++ [s.id])) :
    ∃ b ctx, registerChain svcs RSContextBuilder.new = .ret b ∧
      b.build now log = .ret (.ok ctx, log ++ svcs.map RSContextService.id) := by
  have hchain := registerChain_ret svcs RSContextBuilder.new hnd (fun s _ => rfl) hc
  refine ⟨_,
    buildContext
      { pending_services := insertAllPending svcs RSContextBuilder.new.pending_services,
        after_build_hooks := RSContextBuilder.new.after_build_hooks ++ svcs } now,
    hchain, ?_⟩
  apply build_eq_ok
  have hl : ∀ s ∈ svcs,
      ((buildContext
          { pending_services := insertAllPending svcs RSContextBuilder.new.pending_services,
            after_build_hooks := RSContextBuilder.new.after_build_hooks ++ svcs } now).call
        s.id).isSome = true := by
    intro s hs
    rw [call_of_get _ s.id (storedInfo s) (insertAll_get_mem svcs _ hnd s hs) rfl]
    rfl
  exact runAfterBuildHooks_loggers svcs _ log hl (fun s hs lg => hlog s hs _ lg)

/-- C6: registering any finite sequence of services with pairwise
distinct TypeIds whose hooks all succeed, then building, succeeds and
yields a context on which is_registered is true exactly for the
registered TypeIds. -/
theorem lib_chain_build_succeeds_is_registered (svcs : List RSContextService)
    (now : Nat) (log : List TypeId)
    (hnd : (svcs.map RSContextService.id).Nodup)
    (hc : ∀ s ∈ svcs, ∀ v, s.on_service_created v = .ok ())
    (hb : ∀ s ∈ svcs, ∀ ctx lg, (s.on_all_services_built ctx lg).1 = .ok ()) :
    ∃ b ctx log2, registerChain svcs RSContextBuilder.new = .ret b ∧
      b.build now log = .ret (.ok ctx, log2) ∧
      (∀ s ∈ svcs, ctx.is_registered s.id = true) ∧
      (∀ t : TypeId, t ∉ svcs.map RSContextService.id → ctx.is_registered t = false) := by
  have hchain := registerChain_ret svcs RSContextBuilder.new hnd (fun s _ => rfl) hc
  have hl : ∀ s ∈ svcs,
      ((buildContext
          { pending_services := insertAllPending svcs RSContextBuilder.new.pending_services,
            after_build_hooks := RSContextBuilder.new.after_build_hooks ++ svcs } now).call
        s.id).isSome = true := by
    intro s hs
    rw [call_of_get _ s.id (storedInfo s) (insertAll_get_mem svcs _ hnd s hs) rfl]
    rfl
  obtain ⟨log2, hrun⟩ := runAfterBuildHooks_ok svcs _ log hl (fun s hs lg => hb s hs _ lg)
  refine ⟨_, _, log2, hchain, build_eq_ok _ now log log2 hrun, ?_, ?_⟩
  · intro s hs
    rw [RSContext.is_registered]
    rw [show (buildContext
        { pending_services := insertAllPending svcs RSContextBuilder.new.pending_services,
          after_build_hooks := RSContextBuilder.new.after_build_hooks ++ svcs } now).service_map
      = insertAllPending svcs [] from rfl]
    rw [insertAll_contains]
    simp [List.mem_map_of_mem RSContextService.id hs]
  · intro t ht
    rw [RSContext.is_registered]
    rw [show (buildContext
        { pending_services := insertAllPending svcs RSContextBuilder.new.pending_services,
          after_build_hooks := RSContextBuilder.new.after_build_hooks ++ svcs } now).service_map
      = insertAllPending svcs [] from rfl]
    rw [insertAll_contains]
    simp [ht, mapContains]

/-- C7: on a context produced by a successful chain and build, call
returns a handle (the stored container, whose dynamic type is the
requested one) exactly for the registered TypeIds, and the normal
empty result for every other TypeId; call is total, so it never errors
and never panics. -/
theorem lib_call_some_iff_registered (svcs : List RSContextService)
    (b : RSContextBuilder) (ctx : RSContext) (now : Nat) (log log2 : List TypeId)
    (t : TypeId)
    (hnd : (svcs.map RSContextService.id).Nodup)
    (hc : ∀ s ∈ svcs, ∀ v, s.on_service_created v = .ok ())
    (hchain : registerChain svcs RSContextBuilder.new = .ret b)
    (hbuild : b.build now log = .ret (.ok ctx, log2)) :
    (t ∈ svcs.map RSContextService.id → ∃ c, ctx.call t = some c ∧ c.dynTypeId = t) ∧
      (t ∉ svcs.map RSContextService.id → ctx.call t = none) := by
  have hch2 := registerChain_ret svcs RSContextBuilder.new hnd (fun s _ => rfl) hc
  rw [hchain] at hch2
  injection hch2 with hb2
  subst hb2
  have hctx := build_ok_inv _ _ _ _ _ hbuild
  subst hctx
  constructor
  · intro ht
    obtain ⟨s, hs, rfl⟩ := List.mem_map.mp ht
    refine ⟨(storedInfo s).container,
      call_of_get _ s.id (storedInfo s) (insertAll_get_mem svcs _ hnd s hs) rfl, rfl⟩
  · intro ht
    exact call_none_of_get_none _ t (insertAll_get_not_mem svcs _ t ht)

/-- C2 amended: after registering ServiceA and then ServiceB (distinct
TypeIds, succeeding creation hooks), a successful build yields a
context whose creation timestamp is exactly the build-time clock
instant (hence non-decreasing across successive builds whenever the
clock is), and whose registered_services list holds both services
ordered by ascending TypeId — which agrees with registration order
exactly when the TypeId of ServiceA precedes that of ServiceB. -/
theorem lib_metadata_ordered_by_type_id (A B : RSContextService)
    (b : RSContextBuilder) (ctx : RSContext) (now : Nat) (log log2 : List TypeId)
    (hne : A.id ≠ B.id)
    (hcA : ∀ v, A.on_service_created v = .ok ())
    (hcB : ∀ v, B.on_service_created v = .ok ())
    (hchain : registerChain [A, B] RSContextBuilder.new = .ret b)
    (hbuild : b.build now log = .ret (.ok ctx, log2)) :
    ctx.metadata.creation_timestamp = now ∧
      (A.id < B.id →
        ctx.metadata.registered_services.map RsServiceEntryMetadata.type_name
          = [A.type_name, B.type_name]) ∧
      (B.id < A.id →
        ctx.metadata.registered_services.map RsServiceEntryMetadata.type_name
          = [B.type_name, A.type_name]) := by
  have hnd : ([A, B].map RSContextService.id).Nodup := by simp [hne]
  have hch2 := registerChain_ret [A, B] RSContextBuilder.new hnd (fun s _ => rfl)
    (forall_mem_pair A B hcA hcB)
  rw [hchain] at hch2
  injection hch2 with hb2
  subst hb2
  have hctx := build_ok_inv _ _ _ _ _ hbuild
  subst hctx
  refine ⟨rfl, ?_, ?_⟩
  · intro hAB
    have h1 : ¬ B.id < A.id := Nat.lt_asymm hAB
    have h2 : ¬ B.id = A.id := fun h => hne h.symm
    simp [buildContext, insertAllPending, mapInsert, storedInfo, h1, h2]
  · intro hBA
    simp [buildContext, insertAllPending, mapInsert, storedInfo, hBA]

/-- A failing hook pass makes build return that first error. -/
theorem build_eq_err (b : RSContextBuilder) (now : Nat) (log log2 : List TypeId)
    (e : RsServiceError)
    (h : runAfterBuildHooks b.after_build_hooks (buildContext b now) log
        = .ret (.error e, log2)) :
    b.build now log = .ret (.error e, log2) := by
  rw [RSContextBuilder.build, h]

/-- C4 amended: in the blocking build, the first failing built hook
halts the pass: hooks registered before it run (their log effects are
kept), the hooks after it never run, the error is surfaced to the
caller verbatim, and the caller receives no context for the attempt
(only the error). -/
theorem lib_build_first_hook_error_halts (pre post : List RSContextService)
    (f : RSContextService) (e : RsServiceError) (now : Nat) (log : List TypeId)
    (hnd : ((pre ++ f :: post).map RSContextService.id).Nodup)
    (hc : ∀ s ∈ pre ++ f :: post, ∀ v, s.on_service_created v = .ok ())
    (hpre : ∀ s ∈ pre, ∀ ctx lg, s.on_all_services_built ctx lg = (.ok (), lg ++ [s.id]))
    (hf : ∀ ctx lg, f.on_all_services_built ctx lg = (.error e, lg)) :
    ∃ b, registerChain (pre ++ f :: post) RSContextBuilder.new = .ret b ∧
      b.build now log = .ret (.error e, log ++ pre.map RSContextService.id) := by
  have hchain := registerChain_ret (pre ++ f :: post) RSContextBuilder.new hnd
    (fun s _ => rfl) hc
  refine ⟨_, hchain, ?_⟩
  have hl : ∀ s ∈ pre,
      ((buildContext
          { pending_services :=
              insertAllPending (pre ++ f :: post) RSContextBuilder.new.pending_services,
            after_build_hooks :=
              RSContextBuilder.new.after_build_hooks ++ (pre ++ f :: post) } now).call
        s.id).isSome = true := by
    intro s hs
    rw [call_of_get _ s.id (storedInfo s)
      (insertAll_get_mem _ _ hnd s (List.mem_append_left _ hs)) rfl]
    rfl
  have hlf :
      ((buildContext
          { pending_services :=
              insertAllPending (pre ++ f :: post) RSContextBuilder.new.pending_services,
            after_build_hooks :=
              RSContextBuilder.new.after_build_hooks ++ (pre ++ f :: post) } now).call
        f.id).isSome = true := by
    rw [call_of_get _ f.id (storedInfo f)
      (insertAll_get_mem _ _ hnd f
        (List.mem_append_right _ (List.mem_cons_self f post))) rfl]
    rfl
  have hrun := runAfterBuildHooks_first_error pre post f e _ log hl hlf
    (fun s hs lg => hpre s hs _ lg) (fun lg => hf _ lg)
  exact build_eq_err _ now log _ e hrun

/-- C8: every built hook runs against the finalized context holding
all registrations: with a first service whose built hook demands the
last service be retrievable and a last service whose built hook
demands the first be retrievable, the build succeeds and both lookups
on the final context are present. -/
theorem lib_built_hooks_see_final_context (A B : RSContextService)
    (eA eB : RsServiceError) (now : Nat) (log : List TypeId)
    (hne : A.id ≠ B.id)
    (hcA : ∀ v, A.on_service_created v = .ok ())
    (hcB : ∀ v, B.on_service_created v = .ok ())
    (hA : ∀ ctx lg, A.on_all_services_built ctx lg
        = (if (ctx.call B.id).isSome then .ok () else .error eA, lg))
    (hB : ∀ ctx lg, B.on_all_services_built ctx lg
        = (if (ctx.call A.id).isSome then .ok () else .error eB, lg)) :
    ∃ b ctx, registerChain [A, B] RSContextBuilder.new = .ret b ∧
      b.build now log = .ret (.ok ctx, log) ∧
      (ctx.call A.id).isSome = true ∧ (ctx.call B.id).isSome = true := by
  have hnd : ([A, B].map RSContextService.id).Nodup := by simp [hne]
  have hchain := registerChain_ret [A, B] RSContextBuilder.new hnd (fun s _ => rfl)
    (forall_mem_pair A B hcA hcB)
  refine ⟨_,
    buildContext
      { pending_services := insertAllPending [A, B] RSContextBuilder.new.pending_services,
        after_build_hooks := RSContextBuilder.new.after_build_hooks ++ [A, B] } now,
    hchain, ?_, ?_, ?_⟩
  · apply build_eq_ok
    have hcallA := call_of_get
      (buildContext
        { pending_services := insertAllPending [A, B] RSContextBuilder.new.pending_services,
          after_build_hooks := RSContextBuilder.new.after_build_hooks ++ [A, B] } now)
      A.id (storedInfo A) (insertAll_get_mem [A, B] _ hnd A (by simp)) rfl
    have hcallB := call_of_get
      (buildContext
        { pending_services := insertAllPending [A, B] RSContextBuilder.new.pending_services,
          after_build_hooks := RSContextBuilder.new.after_build_hooks ++ [A, B] } now)
      B.id (storedInfo B) (insertAll_get_mem [A, B] _ hnd B (by simp)) rfl
    show runAfterBuildHooks [A, B] _ log = _
    rw [runAfterBuildHooks, hcallA, hA _ log]
    simp only [hcallB, Option.isSome_some, if_true]
    rw [runAfterBuildHooks, hcallB, hB _ log]
    simp only [hcallA, Option.isSome_some, if_true]
    rw [runAfterBuildHooks]
  · rw [call_of_get _ A.id (storedInfo A) (insertAll_get_mem [A, B] _ hnd A (by simp)) rfl]
    rfl
  · rw [call_of_get _ B.id (storedInfo B) (insertAll_get_mem [A, B] _ hnd B (by simp)) rfl]
    rfl

/-- Witness for lib_metadata_ordered_by_type_id: ServiceA (TypeId 1)
then ServiceB (TypeId 2), built at clock instant 5. -/
theorem lib_metadata_ordered_by_type_id_witness :
    svcA1.id ≠ svcB2.id ∧
      registerChain [svcA1, svcB2] RSContextBuilder.new = .ret builderAB ∧
      builderAB.build 5 [] = .ret (.ok (buildContext builderAB 5), []) ∧
      ((buildContext builderAB 5).metadata.creation_timestamp = 5 ∧
        (svcA1.id < svcB2.id →
          (buildContext builderAB 5).metadata.registered_services.map
            RsServiceEntryMetadata.type_name = [svcA1.type_name, svcB2.type_name]) ∧
        (svcB2.id < svcA1.id →
          (buildContext builderAB 5).metadata.registered_services.map
            RsServiceEntryMetadata.type_name = [svcB2.type_name, svcA1.type_name])) :=
  ⟨by decide, rfl, rfl,
    lib_metadata_ordered_by_type_id svcA1 svcB2 builderAB (buildContext builderAB 5)
      5 [] [] (by decide) (fun _ => rfl) (fun _ => rfl) rfl rfl⟩

/-- Witness for lib_built_hooks_in_registration_order: three loggers
whose TypeIds (3, 1, 2) are not in registration order; the log reads
the ids in registration order. -/
theorem lib_built_hooks_in_registration_order_witness :
    ([lgA, lgB, lgC].map RSContextService.id).Nodup ∧
      (∀ s ∈ [lgA, lgB, lgC], ∀ v, s.on_service_created v = .ok ()) ∧
      (∀ s ∈ [lgA, lgB, lgC], ∀ ctx lg,
        s.on_all_services_built ctx lg = (.ok (), lg ++ [s.id])) ∧
      ∃ b ctx, registerChain [lgA, lgB, lgC] RSContextBuilder.new = .ret b ∧
        b.build 0 [] = .ret (.ok ctx, [3, 1, 2]) :=
  ⟨by decide,
    forall_mem_triple lgA lgB lgC (fun _ => rfl) (fun _ => rfl) (fun _ => rfl),
    forall_mem_triple lgA lgB lgC (fun _ _ => rfl) (fun _ _ => rfl) (fun _ _ => rfl),
    lib_built_hooks_in_registration_order [lgA, lgB, lgC] 0 [] (by decide)
      (forall_mem_triple lgA lgB lgC (fun _ => rfl) (fun _ => rfl) (fun _ => rfl))
      (forall_mem_triple lgA lgB lgC (fun _ _ => rfl) (fun _ _ => rfl) (fun _ _ => rfl))⟩

/-- Witness for lib_build_first_hook_error_halts: an early logger, a
failing hook, a late logger; the build surfaces the failure verbatim
and the log holds only the early logger effect. -/
theorem lib_build_first_hook_error_halts_witness :
    (([wlgA] ++ wFail :: [wlgC]).map RSContextService.id).Nodup ∧
      (∀ s ∈ [wlgA] ++ wFail :: [wlgC], ∀ v, s.on_service_created v = .ok ()) ∧
      (∀ s ∈ [wlgA], ∀ ctx lg, s.on_all_services_built ctx lg = (.ok (), lg ++ [s.id])) ∧
      (∀ ctx lg, wFail.on_all_services_built ctx lg
        = (.error { msg := "built failed" }, lg)) ∧
      ∃ b, registerChain ([wlgA] ++ wFail :: [wlgC]) RSContextBuilder.new = .ret b ∧
        b.build 0 [] = .ret (.error { msg := "built failed" }, [0]) :=
  ⟨by decide,
    forall_mem_triple wlgA wFail wlgC (fun _ => rfl) (fun _ => rfl) (fun _ => rfl),
    forall_mem_single wlgA (fun _ _ => rfl),
    fun _ _ => rfl,
    lib_build_first_hook_error_halts [wlgA] [wlgC] wFail { msg := "built failed" } 0 []
      (by decide)
      (forall_mem_triple wlgA wFail wlgC (fun _ => rfl) (fun _ => rfl) (fun _ => rfl))
      (forall_mem_single wlgA (fun _ _ => rfl))
      (fun _ _ => rfl)⟩

/-- Witness for lib_chain_build_succeeds_is_registered: two distinct
services register and build; TypeIds 10 and 11 are registered and
TypeId 99 is not. -/
theorem lib_chain_build_succeeds_is_registered_witness :
    ([w6a, w6b].map RSContextService.id).Nodup ∧
      (∀ s ∈ [w6a, w6b], ∀ v, s.on_service_created v = .ok ()) ∧
      (∀ s ∈ [w6a, w6b], ∀ ctx lg, (s.on_all_services_built ctx lg).1 = .ok ()) ∧
      ∃ b ctx log2, registerChain [w6a, w6b] RSContextBuilder.new = .ret b ∧
        b.build 0 [] = .ret (.ok ctx, log2) ∧
        (∀ s ∈ [w6a, w6b], ctx.is_registered s.id = true) ∧
        (∀ t : TypeId, t ∉ [w6a, w6b].map RSContextService.id →
          ctx.is_registered t = false) :=
  ⟨by decide,
    forall_mem_pair w6a w6b (fun _ => rfl) (fun _ => rfl),
    forall_mem_pair w6a w6b (fun _ _ => rfl) (fun _ _ => rfl),
    lib_chain_build_succeeds_is_registered [w6a, w6b] 0 [] (by decide)
      (forall_mem_pair w6a w6b (fun _ => rfl) (fun _ => rfl))
      (forall_mem_pair w6a w6b (fun _ _ => rfl) (fun _ _ => rfl))⟩

/-- Witness for lib_call_some_iff_registered at the registered TypeId
1 on the context built from ServiceA and ServiceB. -/
theorem lib_call_some_iff_registered_witness :
    ([svcA1, svcB2].map RSContextService.id).Nodup ∧
      (∀ s ∈ [svcA1, svcB2], ∀ v, s.on_service_created v = .ok ()) ∧
      registerChain [svcA1, svcB2] RSContextBuilder.new = .ret builderAB ∧
      builderAB.build 0 [] = .ret (.ok (buildContext builderAB 0), []) ∧
      ((1 ∈ [svcA1, svcB2].map RSContextService.id →
          ∃ c, (buildContext builderAB 0).call 1 = some c ∧ c.dynTypeId = 1) ∧
        (1 ∉ [svcA1, svcB2].map RSContextService.id →
          (buildContext builderAB 0).call 1 = none)) :=
  ⟨by decide,
    forall_mem_pair svcA1 svcB2 (fun _ => rfl) (fun _ => rfl),
    rfl, rfl,
    lib_call_some_iff_registered [svcA1, svcB2] builderAB (buildContext builderAB 0)
      0 [] [] 1 (by decide)
      (forall_mem_pair svcA1 svcB2 (fun _ => rfl) (fun _ => rfl)) rfl rfl⟩

/-- Witness for lib_built_hooks_see_final_context: the first service
(Logger, TypeId 7) is checked for by the last hook and the last
service (Auditor, TypeId 8) by the first hook; the build succeeds. -/
theorem lib_built_hooks_see_final_context_witness :
    probeFirst.id ≠ probeSecond.id ∧
      (∀ v, probeFirst.on_service_created v = .ok ()) ∧
      (∀ v, probeSecond.on_service_created v = .ok ()) ∧
      ∃ b ctx, registerChain [probeFirst, probeSecond] RSContextBuilder.new = .ret b ∧
        b.build 0 [] = .ret (.ok ctx, []) ∧
        (ctx.call probeFirst.id).isSome = true ∧ (ctx.call probeSecond.id).isSome = true :=
  ⟨by decide, fun _ => rfl, fun _ => rfl,
    lib_built_hooks_see_final_context probeFirst probeSecond
      { msg := "Logger missing" } { msg := "Auditor missing" } 0 [] (by decide)
      (fun _ => rfl) (fun _ => rfl) (fun _ _ => rfl) (fun _ _ => rfl)⟩

/-- Witness for lib_hook_lookup_never_fails on a one-service chain. -/
theorem lib_hook_lookup_never_fails_witness :
    registerChain [w9svc] RSContextBuilder.new = .ret builder9 ∧
      ((∀ s ∈ builder9.after_build_hooks,
          ((buildContext builder9 0).call s.id).isSome = true) ∧
        ∃ r, builder9.build 0 [] = .ret r) :=
  ⟨rfl, lib_hook_lookup_never_fails [w9svc] builder9 0 [] rfl⟩

end RsErvice
